import Mathlib

/-!
Verification development for the No Man's Sky base-builder Blender add-on.

The Python sources under study are `__init__.py` (NMSSettings and the
operators), `parts.py` (PartBuilder), `snap.py` (Snapper) and
`part_overrides/messagemodule.py` (MESSAGEMODULE).  Pure functions are
embedded as Lean functions; Blender scene state is an explicit list of
scene objects; Python exceptions become `Except PyErr`.  Helper modules
that the sources call but that are not part of the studied tree
(`utils.py`, `material.py`, `presets.py`, `power.py`, `part.py`, and
`PartBuilder.get_all_part_data`) are modelled from the specification and
carry a doc comment saying so.
-/

attribute [local semireducible] Rat.mul Rat.add Rat.sub Rat.inv

deriving instance DecidableEq for Except

namespace NMS

/-- Python exception values that the embedded code can raise. -/
inductive PyErr where
  | keyError (k : String)
  | nameError (n : String)
  | valueError (s : String)
  | typeError (s : String)
  deriving DecidableEq, Repr

/-- Values storable as Blender custom properties (ID-property tags) and
as entries of serialized dictionaries: ints, strings, bools and
3-vectors.  Floats are modelled exactly by rationals. -/
inductive TagValue where
  | tInt (n : Int)
  | tStr (s : String)
  | tBool (b : Bool)
  | tVec (x y z : ℚ)
  deriving DecidableEq, Repr

/-- A 3-vector with exact rational coordinates. -/
structure Vec3 where
  x : ℚ
  y : ℚ
  z : ℚ
  deriving DecidableEq, Repr

/-- Cross product of two 3-vectors. -/
def cross (a b : Vec3) : Vec3 :=
  ⟨a.y * b.z - a.z * b.y, a.z * b.x - a.x * b.z, a.x * b.y - a.y * b.x⟩

/-- A 4 by 4 matrix in Blender's row-major layout (`m03`, `m13`, `m23`
is the translation column). -/
structure Mat4 where
  m00 : ℚ := 0
  m01 : ℚ := 0
  m02 : ℚ := 0
  m03 : ℚ := 0
  m10 : ℚ := 0
  m11 : ℚ := 0
  m12 : ℚ := 0
  m13 : ℚ := 0
  m20 : ℚ := 0
  m21 : ℚ := 0
  m22 : ℚ := 0
  m23 : ℚ := 0
  m30 : ℚ := 0
  m31 : ℚ := 0
  m32 : ℚ := 0
  m33 : ℚ := 0
  deriving DecidableEq, Repr

/-- The identity transform. -/
def Mat4.id : Mat4 :=
  { m00 := 1, m11 := 1, m22 := 1, m33 := 1 }

/-- Row-by-column matrix product, matching `mathutils` multiplication. -/
def Mat4.mul (a b : Mat4) : Mat4 where
  m00 := a.m00 * b.m00 + a.m01 * b.m10 + a.m02 * b.m20 + a.m03 * b.m30
  m01 := a.m00 * b.m01 + a.m01 * b.m11 + a.m02 * b.m21 + a.m03 * b.m31
  m02 := a.m00 * b.m02 + a.m01 * b.m12 + a.m02 * b.m22 + a.m03 * b.m32
  m03 := a.m00 * b.m03 + a.m01 * b.m13 + a.m02 * b.m23 + a.m03 * b.m33
  m10 := a.m10 * b.m00 + a.m11 * b.m10 + a.m12 * b.m20 + a.m13 * b.m30
  m11 := a.m10 * b.m01 + a.m11 * b.m11 + a.m12 * b.m21 + a.m13 * b.m31
  m12 := a.m10 * b.m02 + a.m11 * b.m12 + a.m12 * b.m22 + a.m13 * b.m32
  m13 := a.m10 * b.m03 + a.m11 * b.m13 + a.m12 * b.m23 + a.m13 * b.m33
  m20 := a.m20 * b.m00 + a.m21 * b.m10 + a.m22 * b.m20 + a.m23 * b.m30
  m21 := a.m20 * b.m01 + a.m21 * b.m11 + a.m22 * b.m21 + a.m23 * b.m31
  m22 := a.m20 * b.m02 + a.m21 * b.m12 + a.m22 * b.m22 + a.m23 * b.m32
  m23 := a.m20 * b.m03 + a.m21 * b.m13 + a.m22 * b.m23 + a.m23 * b.m33
  m30 := a.m30 * b.m00 + a.m31 * b.m10 + a.m32 * b.m20 + a.m33 * b.m30
  m31 := a.m30 * b.m01 + a.m31 * b.m11 + a.m32 * b.m21 + a.m33 * b.m31
  m32 := a.m30 * b.m02 + a.m31 * b.m12 + a.m32 * b.m22 + a.m33 * b.m32
  m33 := a.m30 * b.m03 + a.m31 * b.m13 + a.m32 * b.m23 + a.m33 * b.m33

/-- Translation component, `Matrix.decompose()[0]` in `mathutils`. -/
def Mat4.translation (m : Mat4) : Vec3 :=
  ⟨m.m03, m.m13, m.m23⟩

/-- A pure translation transform, used for light placement. -/
def Mat4.translationAt (v : Vec3) : Mat4 :=
  { m00 := 1, m11 := 1, m22 := 1, m33 := 1, m03 := v.x, m13 := v.y, m23 := v.z }

/-- The value of `mathutils.Matrix.Rotation(math.radians(-90.0), 4, "X")`
used by `PartBuilder.get_part_data` (parts.py line 161): rotation by -90
degrees about the X axis, taking Blender Z-up space to game Y-up space. -/
def matRotNeg90X : Mat4 :=
  { m00 := 1, m12 := 1, m21 := -1, m33 := 1 }

/-- The value of `mathutils.Matrix.Rotation(math.radians(180.0), 4, "Y")`
used by `Snapper.snap_objects` (snap.py lines 343-347). -/
def matRot180Y : Mat4 :=
  { m00 := -1, m11 := 1, m22 := -1, m33 := 1 }

/-- Determinant of a 3 by 3 matrix given row by row. -/
def det3 (a b c d e f g h i : ℚ) : ℚ :=
  a * (e * i - f * h) - b * (d * i - f * g) + c * (d * h - e * g)

/-- Determinant of a 4 by 4 matrix by cofactor expansion on the first row. -/
def Mat4.det (m : Mat4) : ℚ :=
  m.m00 * det3 m.m11 m.m12 m.m13 m.m21 m.m22 m.m23 m.m31 m.m32 m.m33
  - m.m01 * det3 m.m10 m.m12 m.m13 m.m20 m.m22 m.m23 m.m30 m.m32 m.m33
  + m.m02 * det3 m.m10 m.m11 m.m13 m.m20 m.m21 m.m23 m.m30 m.m31 m.m33
  - m.m03 * det3 m.m10 m.m11 m.m12 m.m20 m.m21 m.m22 m.m30 m.m31 m.m32

/-- Matrix inverse by the adjugate formula; `none` when singular,
mirroring `mathutils.Matrix.invert` raising `ValueError` there. -/
def Mat4.inv? (m : Mat4) : Option Mat4 :=
  let d := m.det
  if d = 0 then none else some
    { m00 := det3 m.m11 m.m12 m.m13 m.m21 m.m22 m.m23 m.m31 m.m32 m.m33 / d
      m01 := -det3 m.m01 m.m02 m.m03 m.m21 m.m22 m.m23 m.m31 m.m32 m.m33 / d
      m02 := det3 m.m01 m.m02 m.m03 m.m11 m.m12 m.m13 m.m31 m.m32 m.m33 / d
      m03 := -det3 m.m01 m.m02 m.m03 m.m11 m.m12 m.m13 m.m21 m.m22 m.m23 / d
      m10 := -det3 m.m10 m.m12 m.m13 m.m20 m.m22 m.m23 m.m30 m.m32 m.m33 / d
      m11 := det3 m.m00 m.m02 m.m03 m.m20 m.m22 m.m23 m.m30 m.m32 m.m33 / d
      m12 := -det3 m.m00 m.m02 m.m03 m.m10 m.m12 m.m13 m.m30 m.m32 m.m33 / d
      m13 := det3 m.m00 m.m02 m.m03 m.m10 m.m12 m.m13 m.m20 m.m22 m.m23 / d
      m20 := det3 m.m10 m.m11 m.m13 m.m20 m.m21 m.m23 m.m30 m.m31 m.m33 / d
      m21 := -det3 m.m00 m.m01 m.m03 m.m20 m.m21 m.m23 m.m30 m.m31 m.m33 / d
      m22 := det3 m.m00 m.m01 m.m03 m.m10 m.m11 m.m13 m.m30 m.m31 m.m33 / d
      m23 := -det3 m.m00 m.m01 m.m03 m.m10 m.m11 m.m13 m.m20 m.m21 m.m23 / d
      m30 := -det3 m.m10 m.m11 m.m12 m.m20 m.m21 m.m22 m.m30 m.m31 m.m32 / d
      m31 := det3 m.m00 m.m01 m.m02 m.m20 m.m21 m.m22 m.m30 m.m31 m.m32 / d
      m32 := -det3 m.m00 m.m01 m.m02 m.m10 m.m11 m.m12 m.m30 m.m31 m.m32 / d
      m33 := det3 m.m00 m.m01 m.m02 m.m10 m.m11 m.m12 m.m20 m.m21 m.m22 / d }

/-- In-place `Matrix.invert()`, raising `ValueError` on a singular
matrix as `mathutils` does. -/
def minv (m : Mat4) : Except PyErr Mat4 :=
  match m.inv? with
  | some r => .ok r
  | none => .error (.valueError "Matrix.invert")

/-- Validity of a Python integer-literal digit run after its first digit:
underscores may appear only singly and between digits. -/
def pyDigitsTail : List Char → Bool
  | [] => true
  | '_' :: c :: rest => c.isDigit && pyDigitsTail rest
  | ['_'] => false
  | c :: rest => c.isDigit && pyDigitsTail rest

/-- Validity of a full Python integer digit run: nonempty, starting with
a digit, underscores only between digits. -/
def pyDigitsValid : List Char → Bool
  | [] => false
  | c :: rest => c.isDigit && pyDigitsTail rest

/-- Numeric value of a digit run, ignoring grouping underscores. -/
def pyDigitsValue (cs : List Char) : Nat :=
  (cs.filter (fun c => c != '_')).foldl (fun acc c => acc * 10 + (c.toNat - 48)) 0

/-- Python `str.strip()` and the whitespace stripping performed by
`int()`: drop whitespace from both ends. -/
def py_strip (s : String) : String :=
  let cs := s.toList.dropWhile (fun c => c.isWhitespace)
  String.mk ((cs.reverse.dropWhile (fun c => c.isWhitespace)).reverse)

/-- Python `s.replace("^", "")` as applied to object IDs (parts.py line
265): remove every caret character. -/
def strip_carets (s : String) : String :=
  String.mk (s.toList.filter (fun c => c != '^'))

/-- Accumulator pass of a Python `s.split(",")`. -/
def split_commas_aux : List Char → List Char → List (List Char)
  | [], acc => [acc.reverse]
  | c :: rest, acc =>
    if c == ',' then acc.reverse :: split_commas_aux rest []
    else split_commas_aux rest (c :: acc)

/-- Python `s.split(",")` (snap.py lines 217-222): split on every comma,
keeping empty fields. -/
def py_split_commas (s : String) : List String :=
  (split_commas_aux s.toList []).map String.mk

/-- Embedding of Python `int(s)` on strings: surrounding whitespace is
stripped, an optional sign precedes a digit run with optional grouping
underscores; `none` models the `ValueError` that `int` raises otherwise
(which `generate_data` catches to fall back to the raw text). -/
def pyIntParse (s : String) : Option Int :=
  let cs := (py_strip s).toList
  match cs with
  | '+' :: rest => if pyDigitsValid rest then some (pyDigitsValue rest) else none
  | '-' :: rest => if pyDigitsValid rest then some (-(pyDigitsValue rest : Int)) else none
  | rest => if pyDigitsValid rest then some (pyDigitsValue rest) else none

/-- Python `str()` applied to a tag value. -/
def pyStr : TagValue → String
  | .tInt n => toString n
  | .tStr s => s
  | .tBool b => if b then "True" else "False"
  | .tVec x y z => toString x ++ " " ++ toString y ++ " " ++ toString z

/-- Python `int()` applied to a tag value, as in
`PartBuilder.get_part_data` (parts.py lines 180-181). -/
def tagAsInt : TagValue → Except PyErr Int
  | .tInt n => .ok n
  | .tBool b => .ok (if b then 1 else 0)
  | .tStr s =>
    match pyIntParse s with
    | some n => .ok n
    | none => .error (.valueError s)
  | .tVec _ _ _ => .error (.typeError "int")

/-- Association-list update with Python-dict semantics: replace in place
when the key exists, append otherwise. -/
def assocSet {α : Type} (l : List (String × α)) (k : String) (v : α) : List (String × α) :=
  match l with
  | [] => [(k, v)]
  | (k', v') :: rest => if k' == k then (k', v) :: rest else (k', v') :: assocSet rest k v

/-- The Blender custom-property dictionary of a scene object. -/
abbrev Tags := List (String × TagValue)

/-- Tag lookup, `object["key"]` when some and `KeyError` when none. -/
def getTag (t : Tags) (k : String) : Option TagValue :=
  List.lookup k t

/-- Python `"key" in object` on the custom-property dictionary. -/
def hasTag (t : Tags) (k : String) : Bool :=
  (List.lookup k t).isSome

/-- Tag lookup that raises `KeyError` like a Python subscript. -/
def reqTag (t : Tags) (k : String) : Except PyErr TagValue :=
  match List.lookup k t with
  | some v => .ok v
  | none => .error (.keyError k)

/-- A Blender scene object: its name, custom-property tags, world
transform, interaction flags, transform locks, parent link, assigned
material and lamp-data properties. -/
structure SceneOb where
  name : String
  tags : Tags := []
  matrix_world : Mat4 := Mat4.id
  selected : Bool := false
  hide_select : Bool := false
  hide_viewport : Bool := false
  lock_scale : Bool := false
  lock_location : Bool := false
  lock_rot : Bool := false
  parentName : Option String := none
  material : Option String := none
  dataProps : Tags := []
  deriving DecidableEq, Repr

/-- The Blender scene, `bpy.data.objects`, in creation order. -/
abbrev Scene := List SceneOb

/-- The environment outside the scene that `parts.py` consults:
`os.path.isfile` on candidate OBJ paths. -/
structure Env where
  fileExists : String → Bool

/-- Modelled from the spec: `utils.get_direction_vector` (utils.py is
not under src/).  Section 4.1: given a 4 by 4 transform and a direction
tag, return the corresponding basis column as a 3-vector; tag "up" names
the Y (up) basis column and tag "at" the Z (forward) basis column. -/
def get_direction_vector (m : Mat4) (tag : String) : Vec3 :=
  if tag == "up" then ⟨m.m01, m.m11, m.m21⟩
  else if tag == "at" then ⟨m.m02, m.m12, m.m22⟩
  else ⟨0, 0, 0⟩

/-- Modelled from the spec: `utils.move_to` (utils.py is not under
src/).  Section 4.1: orient an object so that its local up and forward
axes match the supplied vectors at the supplied position; the remaining
basis axis is completed with the cross product. -/
def move_to_matrix (position upv atv : Vec3) : Mat4 :=
  let xv := cross upv atv
  { m00 := xv.x, m10 := xv.y, m20 := xv.z,
    m01 := upv.x, m11 := upv.y, m21 := upv.z,
    m02 := atv.x, m12 := atv.y, m22 := atv.z,
    m03 := position.x, m13 := position.y, m23 := position.z,
    m33 := 1 }

/-- Modelled from the spec: `utils.get_adjacent_dict_key` (utils.py is
not under src/).  Section 4.1 and testable property 2b: cyclic next or
previous entry of an ordered list, wrapping at both ends, returning the
current value unchanged when it is not in the list. -/
def get_adjacent_dict_key (l : List String) (current : String) (step : String) : String :=
  match l.findIdx? (fun s => s == current) with
  | none => current
  | some i =>
    if step == "next" then l.getD ((i + 1) % l.length) current
    else if step == "prev" then l.getD ((i + l.length - 1) % l.length) current
    else current

/-- Modelled from the spec: `material.assign_material` (material.py is
not under src/).  Section 4.2: resolve a pre-authored shading resource
named by convention from the material family and the colour index and
assign it as the object's render material; it writes no custom tags. -/
def assign_material (ob : SceneOb) (colour_index : Int) (mat : Option String) : SceneOb :=
  { ob with material := some ((mat.getD "CONCRETE") ++ "_" ++ toString colour_index) }

/-- One entry of the lights dictionary (`lights.json`): a lamp type, a
local offset and the remaining lamp-data properties. -/
structure LightInfo where
  type : String
  location : Vec3
  props : Tags := []
  deriving DecidableEq, Repr

/-- The `PartBuilder` state from parts.py: the static dictionaries
loaded in `__init__`, the part cache and the build-order counter that
`new_file` resets. -/
structure PartBuilder where
  lights_dictionary : List (String × List (String × LightInfo)) := []
  nice_name_dictionary : List (String × String) := []
  part_cache : List (String × SceneOb) := []
  part_reference : List (String × String) := []
  part_order : Int := 0
  deriving DecidableEq

/-- `PartBuilder.__init__` (parts.py lines 21-45): load the dictionaries,
set an empty part cache and record the part reference. -/
def mk_part_builder (lights : List (String × List (String × LightInfo)))
    (nice : List (String × String)) (ref : List (String × String)) : PartBuilder :=
  { lights_dictionary := lights, nice_name_dictionary := nice,
    part_cache := [], part_reference := ref }

/-- `PartBuilder.clear_cache` (parts.py lines 56-58). -/
def clear_cache (pb : PartBuilder) : PartBuilder :=
  { pb with part_cache := [] }

/-- `PartBuilder.get_obj_path` (parts.py lines 103-106). -/
def get_obj_path (pb : PartBuilder) (part : String) : Option String :=
  List.lookup part pb.part_reference

/-- `PartBuilder.build_light` (parts.py lines 285-330): when the item's
object ID is in the lights dictionary, create one lamp per entry at its
local offset, copy the remaining declared properties onto the lamp data,
tag it `NMS_LIGHT`, parent it under the item, and hide it from direct
interaction.  Returns the created lamp objects. -/
def build_light (pb : PartBuilder) (item : SceneOb) : List SceneOb :=
  match getTag item.tags "objectID" with
  | some (.tStr object_id) =>
    match List.lookup object_id pb.lights_dictionary with
    | some light_information =>
      (List.enum light_information).map (fun p =>
        { name := item.name ++ "_light" ++ toString p.1,
          matrix_world := Mat4.translationAt p.2.2.location,
          tags := [("NMS_LIGHT", .tBool true)],
          dataProps := p.2.2.props,
          parentName := some item.name,
          hide_viewport := true,
          hide_select := true })
    | none => []
  | _ => []

/-- Which of `retrieve_part`'s three outcomes produced the object. -/
inductive RetrieveBranch where
  | objImport
  | cube
  | cacheDup
  deriving DecidableEq, Repr

/-- `PartBuilder.retrieve_part` (parts.py lines 114-147).  When the part
is in the cache and the cached object is still in the scene, the code
executes `utils.duplicate_hierarchy(item)` where `item` is an undefined
name, so that branch raises `NameError`; otherwise the part resolves by
OBJ import when the catalog path is an existing file, or by a placeholder
cube.  The resulting object is named and tagged with the part ID and
`build_light` runs on it; a freshly imported mesh or primitive cube
carries no custom tags.  Returns the branch taken, the item and the lamp
objects it created. -/
def retrieve_part (env : Env) (pb : PartBuilder) (scene : Scene) (part_name : String) :
    Except PyErr (RetrieveBranch × SceneOb × List SceneOb) :=
  let cacheErr : Option PyErr :=
    match List.lookup part_name pb.part_cache with
    | some item_object =>
      if scene.any (fun ob => ob.name == item_object.name) then some (.nameError "item")
      else none
    | none => none
  match cacheErr with
  | some e => .error e
  | none =>
    let obj_path := (get_obj_path pb part_name).getD ""
    let branch := if env.fileExists obj_path then RetrieveBranch.objImport else RetrieveBranch.cube
    let item : SceneOb := { name := part_name, tags := [("objectID", .tStr part_name)] }
    .ok (branch, item, build_light pb item)

/-- `PartBuilder.build_item` (parts.py lines 185-237): retrieve the
part, lock its scale (and everything for `BASE_FLAG`), write the
`objectID`, `Timestamp` and `belongs_to_preset` tags, apply the colour
material, move it to the requested transform and select it.  Returns the
item, the scene with the item and its lamps appended, and the builder
state. -/
def build_item (env : Env) (pb : PartBuilder) (scene : Scene) (part : String)
    (timestamp : Int) (userdata : Int) (position up_vec at_vec : Vec3) :
    Except PyErr (SceneOb × Scene × PartBuilder) :=
  match retrieve_part env pb scene part with
  | .error e => .error e
  | .ok (_, item, lights) =>
    let item := { item with lock_scale := true }
    let item := { item with
      lock_location := if part == "BASE_FLAG" then true else item.lock_location,
      lock_rot := if part == "BASE_FLAG" then true else item.lock_rot }
    let tagged := assocSet (assocSet (assocSet item.tags "objectID" (.tStr part))
      "Timestamp" (.tInt timestamp)) "belongs_to_preset" (.tBool false)
    let item := { item with tags := tagged }
    let item := assign_material item userdata none
    let item := { item with matrix_world := move_to_matrix position up_vec at_vec }
    let item := { item with selected := true }
    .ok (item, scene ++ item :: lights, pb)

/-- One element of an export document's `Objects` array; `Timestamp`
and `UserData` are present exactly when the serializer emitted them. -/
structure ObjectEntry where
  ObjectID : String
  Position : Vec3
  Up : Vec3
  At : Vec3
  Timestamp : Option Int := none
  UserData : Option Int := none
  deriving DecidableEq, Repr

/-- `PartBuilder.get_part_data` (parts.py lines 149-183): premultiply
the object's world transform by the -90 degree X rotation, decompose it
into position, up and at, and emit the dictionary; when not serializing
a preset member, additionally read `Timestamp` and `UserData` from the
object's tags and coerce them with `int`. -/
def get_part_data (ob : SceneOb) (is_preset : Bool) : Except PyErr ObjectEntry :=
  let obj_wm_offset := matRotNeg90X.mul ob.matrix_world
  let pos := obj_wm_offset.translation
  let up := get_direction_vector obj_wm_offset "up"
  let atv := get_direction_vector obj_wm_offset "at"
  match getTag ob.tags "objectID" with
  | none => .error (.keyError "objectID")
  | some idv =>
    if is_preset then
      .ok { ObjectID := "^" ++ pyStr idv, Position := pos, Up := up, At := atv }
    else
      match getTag ob.tags "Timestamp" with
      | none => .error (.keyError "Timestamp")
      | some timestamp =>
        match getTag ob.tags "UserData" with
        | none => .error (.keyError "UserData")
        | some user_data =>
          match tagAsInt timestamp with
          | .error e => .error e
          | .ok tsn =>
            match tagAsInt user_data with
            | .error e => .error e
            | .ok udn =>
              .ok { ObjectID := "^" ++ pyStr idv, Position := pos, Up := up, At := atv,
                    Timestamp := some tsn, UserData := some udn }

/-- The `belongs_to_preset is False` comprehension of
`PartBuilder.get_all_nms_objects` (parts.py line 76): every scene object
is subscripted with `belongs_to_preset`, so the first object lacking the
tag raises `KeyError`. -/
def flat_parts_filter : Scene → Except PyErr (List SceneOb)
  | [] => .ok []
  | ob :: rest =>
    match getTag ob.tags "belongs_to_preset" with
    | none => .error (.keyError "belongs_to_preset")
    | some v =>
      match flat_parts_filter rest with
      | .error e => .error e
      | .ok rest' => if v == .tBool false then .ok (ob :: rest') else .ok rest'

/-- `PartBuilder.get_all_nms_objects` (parts.py lines 60-80): with
`capture_presets` the union of preset-tagged objects and objects whose
`belongs_to_preset` tag is `False`; without it, all objects carrying the
`objectID` tag. -/
def get_all_nms_objects (scene : Scene) (capture_presets : Bool) :
    Except PyErr (List SceneOb) :=
  if capture_presets then
    let presets := scene.filter (fun ob => hasTag ob.tags "presetID")
    match flat_parts_filter scene with
    | .error e => .error e
    | .ok flat_parts => .ok (presets ++ flat_parts)
  else
    .ok (scene.filter (fun ob => hasTag ob.tags "objectID"))

/-- Modelled from the spec: the preset-membership flag consulted by
`get_all_part_data`; section 3 names `belongs to preset` as the
membership flag of a part instance. -/
def is_preset_member (ob : SceneOb) : Bool :=
  getTag ob.tags "belongs_to_preset" == some (.tBool true)

/-- Modelled from the spec: `PartBuilder.get_all_part_data`, which
`generate_data` calls but which is absent from parts.py under src/.
Section 4.3: serialize every object returned by `get_all_nms_objects`,
honoring the `is_preset` flag per the object's preset-membership tag. -/
def get_all_part_data (scene : Scene) (capture_presets : Bool) :
    Except PyErr (List ObjectEntry) :=
  match get_all_nms_objects scene capture_presets with
  | .error e => .error e
  | .ok obs => obs.mapM (fun ob => get_part_data ob (is_preset_member ob))

/-- Subscript of an optional serialized field, raising `KeyError` when
the entry does not carry it. -/
def reqOpt {α : Type} (o : Option α) (k : String) : Except PyErr α :=
  match o with
  | some v => .ok v
  | none => .error (.keyError k)

/-- `PartBuilder.build_parts_from_dict` inner loop (parts.py lines
262-280): for each object entry, strip the caret from `ObjectID`,
subscript `Timestamp` and `UserData`, and build the item. -/
def build_entries (env : Env) (pb : PartBuilder) (scene : Scene) :
    List ObjectEntry → Except PyErr (Scene × PartBuilder)
  | [] => .ok (scene, pb)
  | e :: rest =>
    let part := strip_carets e.ObjectID
    match reqOpt e.Timestamp "Timestamp" with
    | .error er => .error er
    | .ok timestamp =>
      match reqOpt e.UserData "UserData" with
      | .error er => .error er
      | .ok user_data =>
        match build_item env pb scene part timestamp user_data e.Position e.Up e.At with
        | .error er => .error er
        | .ok (_, scene', pb') => build_entries env pb' scene' rest

/-- A JSON field that the game stores as an integer when the recorded
text parses as one, and as text otherwise. -/
inductive IntOrStr where
  | int (n : Int)
  | str (s : String)
  deriving DecidableEq, Repr

/-- Python `str()` of such a field value. -/
def IntOrStr.toPyStr : IntOrStr → String
  | .int n => toString n
  | .str s => s

/-- The `Owner` block of the export document. -/
structure OwnerData where
  UID : String
  LID : String
  USN : String
  PTK : String
  TS : IntOrStr
  deriving DecidableEq, Repr

/-- The fixed `BaseType` tag of the export document. -/
structure BaseTypeData where
  PersistentBaseTypes : String
  deriving DecidableEq, Repr

/-- Modelled from the spec: one serialized preset for the document's
`Presets` array (presets.py is not under src/).  Section 4.6: a preset
carries its name and its own composition of part entries. -/
structure PresetEntry where
  name : String
  objects : List ObjectEntry
  deriving DecidableEq, Repr

/-- Modelled from the spec: the preset catalog held by the
`PresetBuilder` (presets.py is not under src/), mapping preset names to
their stored compositions. -/
abbrev PresetCatalog := List (String × List ObjectEntry)

/-- The export document assembled by `NMSSettings.generate_data`
(init file lines 270-307); `Presets` is present exactly when the
serializer emitted it. -/
structure NMSDocument where
  BaseVersion : Int
  OriginalBaseVersion : Int
  GalacticAddress : IntOrStr
  Position : Vec3
  Forward : Vec3
  UserData : Int
  LastUpdateTimestamp : IntOrStr
  RID : String
  Owner : OwnerData
  Name : String
  BaseType : BaseTypeData
  LastEditedById : String
  LastEditedByUsername : String
  Objects : List ObjectEntry
  Presets : Option (List PresetEntry) := none
  deriving DecidableEq, Repr

/-- `PartBuilder.build_parts_from_dict` (parts.py lines 250-282) on a
typed export document, whose `Objects` key is always present. -/
def build_parts_from_dict (env : Env) (pb : PartBuilder) (scene : Scene) (d : NMSDocument) :
    Except PyErr (Scene × PartBuilder) :=
  build_entries env pb scene d.Objects

/-- The Blender scene-level properties of `NMSSettings` that make up the
Base Record (init file lines 97-194), with their declared defaults. -/
structure NMSSettings where
  string_base : String := ""
  string_address : String := ""
  string_usn : String := ""
  string_uid : String := ""
  string_lid : String := ""
  string_ptk : String := ""
  string_ts : String := ""
  string_last_ts : String := ""
  float_pos_x : ℚ := 0
  float_pos_y : ℚ := 0
  float_pos_z : ℚ := 0
  float_ori_x : ℚ := 0
  float_ori_y : ℚ := 0
  float_ori_z : ℚ := 0
  LastEditedById : String := ""
  LastEditedByUsername_value : String := ""
  original_base_version : Int := 3
  room_vis_switch : Int := 0
  deriving DecidableEq, Repr

/-- The per-object pass of `new_file`'s deletion sweep (init file lines
399-415): deselect, then select (restoring interaction flags) any object
carrying an `ObjectID`, `PresetID`, `NMS_LIGHT` or `base_builder_item`
key; note the capitalised `ObjectID` and `PresetID`. -/
def new_file_mark (ob : SceneOb) : SceneOb :=
  let ob := { ob with selected := false }
  let ob :=
    if hasTag ob.tags "ObjectID" then { ob with hide_select := false, selected := true }
    else ob
  let ob :=
    if hasTag ob.tags "PresetID" then { ob with hide_select := false, selected := true }
    else ob
  let ob :=
    if hasTag ob.tags "NMS_LIGHT" then
      { ob with hide_viewport := false, hide_select := false, selected := true }
    else ob
  if hasTag ob.tags "base_builder_item" then
    { ob with hide_viewport := false, hide_select := false, selected := true }
  else ob

/-- `bpy.ops.object.delete()` after the sweep: the selected objects are
removed from the scene. -/
def new_file_sweep (scene : Scene) : Scene :=
  (scene.map new_file_mark).filter (fun ob => !ob.selected)

/-- `NMSSettings.new_file` (init file lines 368-419): reset every Base
Record field to its default, reset the part builder's ordering counter,
run the tag-driven deletion sweep, and reset the room-visibility state. -/
def new_file (st : NMSSettings) (scene : Scene) (pb : PartBuilder) :
    NMSSettings × Scene × PartBuilder :=
  let st := { st with
    string_address := "", string_base := "", string_lid := "", string_ts := "",
    string_uid := "", string_usn := "", string_ptk := "",
    float_pos_x := 0, float_pos_y := 0, float_pos_z := 0,
    float_ori_x := 0, float_ori_y := 0, float_ori_z := 0,
    string_last_ts := "", LastEditedById := "", original_base_version := 3,
    LastEditedByUsername_value := "" }
  let pb := { pb with part_order := 0 }
  let scene := new_file_sweep scene
  ({ st with room_vis_switch := 0 }, scene, pb)

/-- The `int(...)`-with-fallback pattern of `generate_data` (init file
lines 253-268): an integer when the stored text parses as one, the raw
text otherwise. -/
def int_or_str (s : String) : IntOrStr :=
  match pyIntParse s with
  | some n => .int n
  | none => .str s

/-- Modelled from the spec: `PresetBuilder.get_all_preset_data`
(presets.py is not under src/).  Section 4.6: bulk serialize every known
preset, each capturing only its own composition. -/
def get_all_preset_data (cat : PresetCatalog) : List PresetEntry :=
  cat.map (fun p => { name := p.1, objects := p.2 })

/-- `NMSSettings.generate_data` (init file lines 247-307): assemble the
export document with its fixed constants, the parse-or-text numeric
fields, the serialized `Objects` array, and a `Presets` array exactly
when `capture_presets` is requested. -/
def generate_data (st : NMSSettings) (scene : Scene) (cat : PresetCatalog)
    (capture_presets : Bool) : Except PyErr NMSDocument :=
  match get_all_part_data scene capture_presets with
  | .error e => .error e
  | .ok objects => .ok {
    BaseVersion := 4,
    OriginalBaseVersion := st.original_base_version,
    GalacticAddress := int_or_str st.string_address,
    Position := ⟨st.float_pos_x, st.float_pos_y, st.float_pos_z⟩,
    Forward := ⟨st.float_ori_x, st.float_ori_y, st.float_ori_z⟩,
    UserData := 0,
    LastUpdateTimestamp := int_or_str st.string_last_ts,
    RID := "",
    Owner := { UID := st.string_uid, LID := st.string_lid, USN := st.string_usn,
               PTK := st.string_ptk, TS := int_or_str st.string_ts },
    Name := st.string_base,
    BaseType := { PersistentBaseTypes := "HomePlanetBase" },
    LastEditedById := st.LastEditedById,
    LastEditedByUsername := st.LastEditedByUsername_value,
    Objects := objects,
    Presets := if capture_presets then some (get_all_preset_data cat) else none }

/-- Modelled from the spec: the power-control marker recognised by the
power network builder (power.py is not under src/); snap.py refers to
such markers by the `POWER_CONTROL` snap ID. -/
def is_power_control (ob : SceneOb) : Bool :=
  getTag ob.tags "SnapID" == some (.tStr "POWER_CONTROL")

/-- Modelled from the spec: `power.optimise_control_points` (power.py is
not under src/).  Section 4.7: after a bulk import, merge control points
that coincide, keeping the first of each coincident family. -/
def optimise_control_points (scene : Scene) : Scene :=
  scene.foldl (fun acc ob =>
    if is_power_control ob
        && acc.any (fun o => is_power_control o && o.matrix_world == ob.matrix_world) then
      acc
    else acc ++ [ob]) []

/-- Modelled from the spec: `PresetBuilder.build_presets_from_dict`
(presets.py is not under src/).  Section 4.6: rebuild every preset of
the document, registering its composition in the catalog and
instantiating its parts, tagged as belonging to a preset, under a
preset-root object. -/
def build_presets_from_dict (scene : Scene) (cat : PresetCatalog)
    (pl : List PresetEntry) : Scene × PresetCatalog :=
  pl.foldl (fun acc e =>
    let rootTags : Tags := [("objectID", .tStr e.name), ("presetID", .tStr e.name),
      ("belongs_to_preset", .tBool true)]
    let root : SceneOb := { name := e.name, tags := rootTags }
    let members := e.objects.map (fun oe =>
      { name := strip_carets oe.ObjectID,
        tags := [("objectID", .tStr (strip_carets oe.ObjectID)),
                 ("Timestamp", .tInt (oe.Timestamp.getD 1539023700)),
                 ("belongs_to_preset", .tBool true)],
        matrix_world := move_to_matrix oe.Position oe.Up oe.At,
        parentName := some e.name })
    (acc.1 ++ root :: members, assocSet acc.2 e.name e.objects)) (scene, cat)

/-- `NMSSettings.generate_from_data` (init file lines 196-245): start a
new file, copy the document's Base Record fields into the settings (the
typed document always carries every key), build all `Objects`, build the
`Presets` when present, and run the power-control optimisation. -/
def generate_from_data (env : Env) (st : NMSSettings) (scene : Scene) (pb : PartBuilder)
    (cat : PresetCatalog) (d : NMSDocument) :
    Except PyErr (NMSSettings × Scene × PartBuilder × PresetCatalog) :=
  let r := new_file st scene pb
  let st := { r.1 with
    string_address := d.GalacticAddress.toPyStr,
    float_pos_x := d.Position.x, float_pos_y := d.Position.y, float_pos_z := d.Position.z,
    float_ori_x := d.Forward.x, float_ori_y := d.Forward.y, float_ori_z := d.Forward.z,
    string_base := d.Name,
    string_last_ts := d.LastUpdateTimestamp.toPyStr,
    string_uid := d.Owner.UID, string_ts := d.Owner.TS.toPyStr,
    string_lid := d.Owner.LID, string_usn := d.Owner.USN, string_ptk := d.Owner.PTK,
    LastEditedById := d.LastEditedById,
    LastEditedByUsername_value := d.LastEditedByUsername,
    original_base_version := d.OriginalBaseVersion }
  match build_parts_from_dict env r.2.2 r.2.1 d with
  | .error e => .error e
  | .ok (scene, pb) =>
    let sc :=
      match d.Presets with
      | some pl => build_presets_from_dict scene cat pl
      | none => (scene, cat)
    .ok (st, optimise_control_points sc.1, pb, sc.2)

/-- One named snap point of a snap group: its local matrix and the
optional name of its 180-degree counterpart. -/
structure SnapPointInfo where
  matrix : Mat4 := Mat4.id
  opposite : Option String := none
  deriving DecidableEq, Repr

/-- One snap group of `snapping_info.json`: its member part IDs and,
when declared, its named snap points in file order. -/
structure SnapGroupInfo where
  parts : List String := []
  snap_points : Option (List (String × SnapPointInfo)) := none
  deriving DecidableEq, Repr

/-- A per-object snap-cache entry: the `source` and `target` keys last
chosen; a stored `none` models Python storing the value `None`. -/
abbrev SnapRef := List (String × Option String)

/-- Python `ref.get(key, default)` on a snap-cache entry. -/
def refGet (r : SnapRef) (k : String) (dflt : Option String) : Option String :=
  match List.lookup k r with
  | some v => v
  | none => dflt

/-- The `Snapper` state from snap.py: both catalogs loaded in
`__init__` and the mutable per-object-name cache. -/
structure Snapper where
  snap_matrix_dictionary : List (String × SnapGroupInfo) := []
  snap_pair_dictionary : List (String × List (String × (String × String))) := []
  snap_cache : List (String × SnapRef) := []
  deriving DecidableEq

/-- `Snapper.get_snap_matrices_from_group` (snap.py lines 29-37):
the group's `snap_points` when the group exists and declares them. -/
def get_snap_matrices_from_group (s : Snapper) (group : Option String) :
    Option (List (String × SnapPointInfo)) :=
  match group with
  | some g =>
    match List.lookup g s.snap_matrix_dictionary with
    | some info => info.snap_points
    | none => none
  | none => none

/-- `Snapper.get_snap_group_from_part` (snap.py lines 39-48): the first
group, in catalog order, whose member parts contain the part ID. -/
def get_snap_group_from_part (s : Snapper) (part_id : TagValue) : Option String :=
  (s.snap_matrix_dictionary.find? (fun gv =>
    match part_id with
    | .tStr p => gv.2.parts.contains p
    | _ => false)).map (fun gv => gv.1)

/-- Python falsiness of an optional group name (`not group` is true for
both `None` and the empty string). -/
def falsy_str : Option String → Bool
  | none => true
  | some s => s.isEmpty

/-- `Snapper.get_snap_pair_options` (snap.py lines 51-71): nothing when
both resolved groups are falsy, else the pairing catalog entry at
(target group, source group) when both lookups succeed. -/
def get_snap_pair_options (s : Snapper) (target_item_id source_item_id : TagValue) :
    Option (String × String) :=
  let target_group := get_snap_group_from_part s target_item_id
  let source_group := get_snap_group_from_part s source_item_id
  if falsy_str target_group && falsy_str source_group then none
  else
    match target_group with
    | some tg =>
      match List.lookup tg s.snap_pair_dictionary with
      | some snapping_dictionary =>
        match source_group with
        | some sg => List.lookup sg snapping_dictionary
        | none => none
      | none => none
    | none => none

/-- Subscript into a snap-point table, raising `KeyError` like Python. -/
def lookupPoint (datas : List (String × SnapPointInfo)) (k : String) :
    Except PyErr SnapPointInfo :=
  match List.lookup k datas with
  | some i => .ok i
  | none => .error (.keyError k)

/-- The target-key resolution of `snap_objects` (snap.py lines 233-258):
cached value if present (reverting to the pairing's first listed target
point when the cached value is `None` or not among the options), then
cyclic next or previous stepping as requested. -/
def resolve_target_key (tpo : List String) (tref : SnapRef)
    (next_target prev_target : Bool) : String :=
  let default_target_key := tpo.headD ""
  let target_key : Option String := refGet tref "target" (some default_target_key)
  let target_key : String :=
    match target_key with
    | some v => if tpo.contains v then v else default_target_key
    | none => default_target_key
  let target_key := if next_target then get_adjacent_dict_key tpo target_key "next" else target_key
  if prev_target then get_adjacent_dict_key tpo target_key "prev" else target_key

/-- The source-key resolution of `snap_objects` (snap.py lines 272-310).
When the source and target snap IDs are equal, the default source key is
the resolved target point's declared opposite; when additionally a
target step was requested the source key is forced to that opposite;
otherwise the cached value or the default is used.  The result is then
reverted to the default when not among the options, and stepped as
requested. -/
def resolve_source_key (tdatas : List (String × SnapPointInfo)) (spo : List String)
    (sref : SnapRef) (source_id target_id : TagValue) (target_key : String)
    (next_source prev_source next_target prev_target : Bool) : Except PyErr String :=
  let initial_default := spo.headD ""
  let defaultE : Except PyErr String :=
    if source_id == target_id then
      match lookupPoint tdatas target_key with
      | .error e => .error e
      | .ok info => .ok (info.opposite.getD initial_default)
    else .ok initial_default
  match defaultE with
  | .error e => .error e
  | .ok default_source_key =>
    let chosenE : Except PyErr (Option String) :=
      if source_id == target_id && (prev_target || next_target) then
        match lookupPoint tdatas target_key with
        | .error e => .error e
        | .ok info => .ok (some (info.opposite.getD default_source_key))
      else .ok (refGet sref "source" (some default_source_key))
    match chosenE with
    | .error e => .error e
    | .ok chosen =>
      let source_key : String :=
        match chosen with
        | some v => if spo.contains v then v else default_source_key
        | none => default_source_key
      let source_key :=
        if next_source then get_adjacent_dict_key spo source_key "next" else source_key
      let source_key :=
        if prev_source then get_adjacent_dict_key spo source_key "prev" else source_key
      .ok source_key

/-- The snap-point matrix mathematics of `snap_objects` (snap.py lines
320-357), taking the already-inverted baseline matrix: flip the composed
snap matrix 180 degrees about Y in its own frame and land the source so
the two chosen attachment points mate face to face. -/
def snap_placement (start_matrix start_matrix_inv target_matrix
    offset_matrix target_offset_matrix : Mat4) : Except PyErr Mat4 := do
  let target_snap_matrix := target_matrix.mul target_offset_matrix
  let snap_matrix := start_matrix.mul offset_matrix
  let snap_matrix_inv ← minv snap_matrix
  let origin_matrix := snap_matrix_inv.mul snap_matrix
  let origin_flipped_matrix := matRot180Y.mul origin_matrix
  let flipped_snap_matrix := snap_matrix.mul origin_flipped_matrix
  let flipped_local_offset := start_matrix_inv.mul flipped_snap_matrix
  let flipped_local_offset_inv ← minv flipped_local_offset
  .ok (target_snap_matrix.mul flipped_local_offset_inv)

/-- `Snapper.snap_objects` (snap.py lines 165-390).  Returns the Python
return value (`none` models Python `None`), the updated source object
and the updated snapper state.  A preset target simply receives the
source at its transform; missing snap IDs report failure; the source is
then moved to the target as a baseline; a missing pairing reports
failure; otherwise both point keys are resolved and, when both are
truthy, the placement transform is applied and the per-object cache
records the chosen keys (the source entry also records the next target
key taken from its own point's opposite). -/
def snap_objects (s : Snapper) (source target : SceneOb)
    (next_source prev_source next_target prev_target : Bool) :
    Except PyErr (Option Bool × SceneOb × Snapper) :=
  if hasTag target.tags "PresetID" then
    .ok (none, { source with matrix_world := target.matrix_world, selected := true }, s)
  else if !hasTag source.tags "SnapID" then .ok (some false, source, s)
  else if !hasTag target.tags "SnapID" then .ok (some false, source, s)
  else
    let source := { source with matrix_world := target.matrix_world, selected := true }
    let source_id := (getTag source.tags "SnapID").getD (.tStr "")
    let target_id := (getTag target.tags "SnapID").getD (.tStr "")
    match get_snap_pair_options s target_id source_id with
    | none => .ok (some false, source, s)
    | some snap_pairing_options => do
      let target_pairing_options := (py_split_commas snap_pairing_options.1).map py_strip
      let source_pairing_options := (py_split_commas snap_pairing_options.2).map py_strip
      let target_item_snap_reference := (List.lookup target.name s.snap_cache).getD []
      let target_snap_group := get_snap_group_from_part s target_id
      let target_local_matrix_datas := get_snap_matrices_from_group s target_snap_group
      let target_key : Option String :=
        match target_local_matrix_datas with
        | some l =>
          if l.isEmpty then none
          else some (resolve_target_key target_pairing_options target_item_snap_reference
            next_target prev_target)
        | none => none
      let source_item_snap_reference := (List.lookup source.name s.snap_cache).getD []
      let source_snap_group := get_snap_group_from_part s source_id
      let source_local_matrix_datas := get_snap_matrices_from_group s source_snap_group
      let source_key : Option String ←
        match source_local_matrix_datas with
        | some l =>
          if l.isEmpty then pure none
          else
            if source_id == target_id then
              match target_local_matrix_datas, target_key with
              | some tl, some tk => do
                let k ← resolve_source_key tl source_pairing_options
                  source_item_snap_reference source_id target_id tk
                  next_source prev_source next_target prev_target
                pure (some k)
              | _, _ => throw (.typeError "NoneType")
            else do
              let k ← resolve_source_key [] source_pairing_options
                source_item_snap_reference source_id target_id ""
                next_source prev_source next_target prev_target
              pure (some k)
        | none => pure none
      match source_key, target_key with
      | some source_key, some target_key =>
        if source_key.isEmpty || target_key.isEmpty then .ok (none, source, s)
        else do
          let sdl := source_local_matrix_datas.getD []
          let tdl := target_local_matrix_datas.getD []
          let start_matrix_inv ← minv source.matrix_world
          let offset_info ← lookupPoint sdl source_key
          let target_offset_info ← lookupPoint tdl target_key
          let target_location ← snap_placement source.matrix_world start_matrix_inv
            target.matrix_world offset_info.matrix target_offset_info.matrix
          let source := { source with matrix_world := target_location, selected := true }
          let next_info ← lookupPoint sdl source_key
          let next_target_key := next_info.opposite
          let source_item_snap_reference :=
            assocSet (assocSet source_item_snap_reference "source" (some source_key))
              "target" next_target_key
          let target_item_snap_reference :=
            assocSet target_item_snap_reference "target" (some target_key)
          let cache := assocSet (assocSet s.snap_cache source.name source_item_snap_reference)
            target.name target_item_snap_reference
          .ok (some true, source, { s with snap_cache := cache })
      | _, _ => .ok (none, source, s)

/-- Modelled from the spec: the base `Part` entity
(no_mans_sky_base_builder/part.py is not under src/).  Section 4.4: the
logical entity wrapping one placed part's scene object, with
position/up/at, timestamp and user-data properties. -/
structure Part where
  object : SceneOb
  deriving DecidableEq, Repr

/-- Modelled from the spec: the base `Part.serialise` (part.py is not
under src/).  Section 4.4: produce the Part Instance dictionary of the
data model, converting the transform at the serialization boundary with
the -90 degree X rotation. -/
def Part.serialise (p : Part) : List (String × TagValue) :=
  let owm := matRotNeg90X.mul p.object.matrix_world
  let pos := owm.translation
  let up := get_direction_vector owm "up"
  let atv := get_direction_vector owm "at"
  [("ObjectID", .tStr ("^" ++ pyStr ((getTag p.object.tags "objectID").getD (.tStr "")))),
   ("Position", .tVec pos.x pos.y pos.z),
   ("Up", .tVec up.x up.y up.z),
   ("At", .tVec atv.x atv.y atv.z),
   ("Timestamp", (getTag p.object.tags "Timestamp").getD (.tInt 1539023700)),
   ("UserData", (getTag p.object.tags "UserData").getD (.tInt 0))]

/-- Reads a 3-vector from a serialized dictionary, defaulting to zero. -/
def vecOf (data : List (String × TagValue)) (k : String) : Vec3 :=
  match getTag data k with
  | some (.tVec x y z) => ⟨x, y, z⟩
  | _ => ⟨0, 0, 0⟩

/-- Modelled from the spec: the base `Part.deserialise_from_data`
(part.py is not under src/).  Section 4.4: the matching constructor,
rebuilding the part's scene object from the dictionary. -/
def Part.deserialise_from_data (data : List (String × TagValue)) : Part :=
  let object_id := strip_carets (pyStr ((getTag data "ObjectID").getD (.tStr "")))
  { object :=
    { name := object_id,
      tags := [("objectID", .tStr object_id),
               ("Timestamp", (getTag data "Timestamp").getD (.tInt 1539023700)),
               ("UserData", (getTag data "UserData").getD (.tInt 0)),
               ("belongs_to_preset", .tBool false)],
      matrix_world := move_to_matrix (vecOf data "Position") (vecOf data "Up") (vecOf data "At") } }

/-- The `message` property getter of `MESSAGEMODULE`
(messagemodule.py lines 6-8): `self.object.get("Message", "")`. -/
def MESSAGEMODULE.message (p : Part) : TagValue :=
  (getTag p.object.tags "Message").getD (.tStr "")

/-- The `message` property setter of `MESSAGEMODULE`
(messagemodule.py lines 10-12): store `str(value)` under `Message`. -/
def MESSAGEMODULE.set_message (p : Part) (value : TagValue) : Part :=
  { object := { p.object with tags := assocSet p.object.tags "Message" (.tStr (pyStr value)) } }

/-- `MESSAGEMODULE.serialise` (messagemodule.py lines 14-17): the base
dictionary with the `Message` field added from the property. -/
def MESSAGEMODULE.serialise (p : Part) : List (String × TagValue) :=
  assocSet (Part.serialise p) "Message" (MESSAGEMODULE.message p)

/-- `MESSAGEMODULE.deserialise_from_data` (messagemodule.py lines
19-23): delegate to the base reconstruction, then set the message from
`data.get("Message", "")`. -/
def MESSAGEMODULE.deserialise_from_data (data : List (String × TagValue)) : Part :=
  MESSAGEMODULE.set_message (Part.deserialise_from_data data)
    ((getTag data "Message").getD (.tStr ""))

/-- The override behaviors registrable for an object-type ID; the one
cataloged override is the message-bearing variant. -/
inductive OverrideKind where
  | message
  deriving DecidableEq, Repr

/-- Modelled from the spec: the override registry dispatch of section
4.4 — serialization is dispatched by object-type ID to whichever variant
is registered for it, the base `Part` behavior applying otherwise. -/
def serialise_dispatch (registry : List (String × OverrideKind)) (p : Part) :
    List (String × TagValue) :=
  match List.lookup (pyStr ((getTag p.object.tags "objectID").getD (.tStr ""))) registry with
  | some .message => MESSAGEMODULE.serialise p
  | none => Part.serialise p

/-- The `PartBuilder` operations exercised against its cache state. -/
inductive PBOp where
  | clearCache
  | retrievePart (name : String)
  | buildItem (part : String) (ts ud : Int) (pos upv atv : Vec3)
  | buildFromDict (d : NMSDocument)
  | newFile (st : NMSSettings)

/-- One `PartBuilder` operation applied to the builder-and-scene state;
a raised exception leaves the cache untouched (no operation of parts.py
writes the cache before raising). -/
def pb_step (env : Env) (s : PartBuilder × Scene) : PBOp → PartBuilder × Scene
  | .clearCache => (clear_cache s.1, s.2)
  | .retrievePart n =>
    match retrieve_part env s.1 s.2 n with
    | .ok (_, item, lights) => (s.1, s.2 ++ item :: lights)
    | .error _ => s
  | .buildItem part ts ud pos upv atv =>
    match build_item env s.1 s.2 part ts ud pos upv atv with
    | .ok (_, scene', pb') => (pb', scene')
    | .error _ => s
  | .buildFromDict d =>
    match build_parts_from_dict env s.1 s.2 d with
    | .ok (scene', pb') => (pb', scene')
    | .error _ => s
  | .newFile st =>
    let r := new_file st s.2 s.1
    (r.2.2, r.2.1)

/-- A sequence of `PartBuilder` operations from a starting state. -/
def run_ops (env : Env) (s : PartBuilder × Scene) : List PBOp → PartBuilder × Scene
  | [] => s
  | op :: rest => run_ops env (pb_step env s op) rest

/-- The cache-or-default source-key resolution described by the spec for
the not-same-group case: the per-object cached key or the pairing's
first listed source option, reverted to that default when invalid, plus
independent next/prev stepping. -/
def cached_or_default_key (spo : List String) (sref : SnapRef)
    (next_source prev_source : Bool) : String :=
  let dflt := spo.headD ""
  let k : String :=
    match refGet sref "source" (some dflt) with
    | some v => if spo.contains v then v else dflt
    | none => dflt
  let k := if next_source then get_adjacent_dict_key spo k "next" else k
  if prev_source then get_adjacent_dict_key spo k "prev" else k

/-- Whether an `Except` value is a success. -/
def exceptOk {ε α : Type} : Except ε α → Bool
  | .ok _ => true
  | .error _ => false

/-- An environment with no OBJ files on disk. -/
def env0 : Env := ⟨fun _ => false⟩

/-- A part builder over empty catalogs, as `mk_part_builder` leaves it. -/
def pb0 : PartBuilder := {}

/-- A settings record at its declared defaults. -/
def st0 : NMSSettings := {}

/-- A hand-tagged scene object carrying all four tags that
`get_part_data` reads, so that `generate_data` can serialize it. -/
def c1Seed : SceneOb :=
  { name := "seed",
    tags := [("objectID", .tStr "CUBE"), ("Timestamp", .tInt 1539023700),
             ("UserData", .tInt 0), ("belongs_to_preset", .tBool false)] }

/-- The export of the one-object scene with presets captured. -/
def c1Doc : Except PyErr NMSDocument := generate_data st0 [c1Seed] [] true

/-- The round trip: export, rebuild from the exported document, export
again with presets captured. -/
def c1Round : Except PyErr NMSDocument :=
  match c1Doc with
  | .ok d =>
    match generate_from_data env0 st0 [c1Seed] pb0 [] d with
    | .ok r => generate_data r.1 r.2.1 r.2.2.2 true
    | .error e => .error e
  | .error e => .error e

/-- A settings record with every Base Record field away from its
default, to exercise the `new_file` reset. -/
def c3Start : NMSSettings :=
  { string_base := "Base", string_address := "123", string_usn := "usn",
    string_uid := "uid", string_lid := "lid", string_ptk := "ptk",
    string_ts := "5", string_last_ts := "6",
    float_pos_x := 1, float_pos_y := 2, float_pos_z := 3,
    float_ori_x := 4, float_ori_y := 5, float_ori_z := 6,
    LastEditedById := "ed", LastEditedByUsername_value := "eu",
    original_base_version := 7, room_vis_switch := 2 }

/-- A scene holding exactly one part built by `build_item`. -/
def c3BuiltScene : Scene :=
  match build_item env0 pb0 [] "CUBE" 1539023700 0 ⟨0, 0, 0⟩ ⟨0, 1, 0⟩ ⟨0, 0, 1⟩ with
  | .ok r => r.2.1
  | .error _ => []

/-- The state after `new_file` on that scene. -/
def c3After : NMSSettings × Scene × PartBuilder := new_file c3Start c3BuiltScene pb0

/-- Snap points of the counterexample group: two target-side points
whose declared opposites are the two source-side points. -/
def c7Points : List (String × SnapPointInfo) :=
  [("p1", { opposite := some "q1" }), ("p2", { opposite := some "q2" }),
   ("q1", { opposite := some "p1" }), ("q2", { opposite := some "p2" })]

/-- A snapper whose one group `G` contains the two distinct part IDs `A`
and `B` and is paired with itself. -/
def c7Snapper : Snapper :=
  { snap_matrix_dictionary := [("G", { parts := ["A", "B"], snap_points := some c7Points })],
    snap_pair_dictionary := [("G", [("G", ("p1,p2", "q1,q2"))])] }

/-- A source object of snap ID `A`. -/
def c7Source : SceneOb := { name := "src", tags := [("SnapID", .tStr "A")] }

/-- A target object of snap ID `B`, in the same snap group as `A`. -/
def c7Target : SceneOb := { name := "tgt", tags := [("SnapID", .tStr "B")] }

/-- The snap of `A` onto `B` with a next-target step requested. -/
def c7Result : Except PyErr (Option Bool × SceneOb × Snapper) :=
  snap_objects c7Snapper c7Source c7Target false false true false

/-- An empty snapper for the missing-pairing witness. -/
def c6Snapper : Snapper := {}

/-- A source object carrying a snap ID unknown to the empty snapper. -/
def c6Source : SceneOb := { name := "s6", tags := [("SnapID", .tStr "A")] }

/-- A target object carrying a snap ID unknown to the empty snapper,
with a distinctive transform. -/
def c6Target : SceneOb :=
  { name := "t6", tags := [("SnapID", .tStr "B")], matrix_world := Mat4.translationAt ⟨7, 8, 9⟩ }

/-- A scene object carrying no `belongs_to_preset` tag. -/
def c9Light : SceneOb := { name := "lamp", tags := [("NMS_LIGHT", .tBool true)] }

/-- A part builder whose cache holds an entry, as the cache-hit branch
of `retrieve_part` would require. -/
def c10CachedOb : SceneOb := { name := "CUBE" }

/-- The builder state with the artificial cache entry. -/
def c10Builder : PartBuilder := { part_cache := [("CUBE", c10CachedOb)] }

/-- A scene object for the message-override witness. -/
def c8Ob : SceneOb :=
  { name := "MESSAGEMODULE",
    tags := [("objectID", .tStr "MESSAGEMODULE"), ("Message", .tStr "hello")] }

/-- The part wrapping it. -/
def c8Part : Part := { object := c8Ob }

/-- The registry binding the message module's object-type ID to the
message-bearing override. -/
def c8Registry : List (String × OverrideKind) := [("MESSAGEMODULE", .message)]

/-- A scene object for the `get_part_data` witness, with a transform
whose sixteen entries are distinct. -/
def c4Ob : SceneOb :=
  { name := "w",
    tags := [("objectID", .tStr "ROOM"), ("Timestamp", .tInt 11), ("UserData", .tInt 4)],
    matrix_world :=
      { m00 := 1, m01 := 2, m02 := 3, m03 := 4,
        m10 := 5, m11 := 6, m12 := 7, m13 := 8,
        m20 := 9, m21 := 10, m22 := 11, m23 := 12,
        m30 := 0, m31 := 0, m32 := 0, m33 := 1 } }

/-- The document that `generate_data` builds over an empty scene with
default settings and presets captured. -/
def c5Doc0 : NMSDocument :=
  { BaseVersion := 4, OriginalBaseVersion := 3, GalacticAddress := .str "",
    Position := ⟨0, 0, 0⟩, Forward := ⟨0, 0, 0⟩, UserData := 0,
    LastUpdateTimestamp := .str "", RID := "",
    Owner := { UID := "", LID := "", USN := "", PTK := "", TS := .str "" },
    Name := "", BaseType := { PersistentBaseTypes := "HomePlanetBase" },
    LastEditedById := "", LastEditedByUsername := "",
    Objects := [], Presets := some [] }

/-- Looking up the key just written by `assocSet` yields the new value. -/
theorem lookup_assocSet_self {α : Type} (l : List (String × α)) (k : String) (v : α) :
    List.lookup k (assocSet l k v) = some v := by
  induction l with
  | nil => simp [assocSet, List.lookup]
  | cons hd tl ih =>
    by_cases h : hd.1 = k
    · simp [assocSet, h, List.lookup]
    · have hb : (hd.1 == k) = false := by simpa using h
      have hb' : (k == hd.1) = false := by
        simpa using fun he => h he.symm
      cases hd with
      | mk k' v' =>
        simp only [assocSet]
        simp only at hb hb'
        rw [if_neg (by simpa using h)]
        simpa [List.lookup, hb'] using ih

/-- `flat_parts_filter` raises `KeyError` as soon as the scene contains
an object without the `belongs_to_preset` tag. -/
theorem flat_parts_filter_error (scene : Scene) (ob : SceneOb)
    (hmem : ob ∈ scene) (htag : getTag ob.tags "belongs_to_preset" = none) :
    flat_parts_filter scene = .error (.keyError "belongs_to_preset") := by
  induction scene with
  | nil => cases hmem
  | cons hd tl ih =>
    cases hmem with
    | head => simp [flat_parts_filter, htag]
    | tail _ hmem' =>
      cases hv : getTag hd.tags "belongs_to_preset" with
      | none => simp [flat_parts_filter, hv]
      | some v => simp [flat_parts_filter, hv, ih hmem']

/-- `build_item` returns the part builder it was given. -/
theorem build_item_preserves_pb (env : Env) (pb : PartBuilder) (scene : Scene)
    (part : String) (ts ud : Int) (p u a : Vec3) (item : SceneOb) (scene' : Scene)
    (pb' : PartBuilder)
    (h : build_item env pb scene part ts ud p u a = .ok (item, scene', pb')) :
    pb' = pb := by
  unfold build_item at h
  cases hr : retrieve_part env pb scene part with
  | error e => rw [hr] at h; cases h
  | ok r =>
    obtain ⟨b, i, ls⟩ := r
    rw [hr] at h
    simp only [Except.ok.injEq, Prod.mk.injEq] at h
    exact h.2.2.symm

/-- `build_entries` preserves the part cache. -/
theorem build_entries_preserves_cache (env : Env) :
    ∀ (es : List ObjectEntry) (pb : PartBuilder) (scene : Scene) (scene' : Scene)
      (pb' : PartBuilder),
      build_entries env pb scene es = .ok (scene', pb') → pb'.part_cache = pb.part_cache := by
  intro es
  induction es with
  | nil =>
    intro pb scene scene' pb' h
    simp only [build_entries, Except.ok.injEq, Prod.mk.injEq] at h
    rw [← h.2]
  | cons e rest ih =>
    intro pb scene scene' pb' h
    simp only [build_entries] at h
    cases ht : reqOpt e.Timestamp "Timestamp" with
    | error er => simp [ht] at h
    | ok timestamp =>
      simp only [ht] at h
      cases hu : reqOpt e.UserData "UserData" with
      | error er => simp [hu] at h
      | ok user_data =>
        simp only [hu] at h
        cases hb : build_item env pb scene (strip_carets e.ObjectID) timestamp user_data
            e.Position e.Up e.At with
        | error er => simp [hb] at h
        | ok r =>
          obtain ⟨i, s2, pb2⟩ := r
          simp only [hb] at h
          have hpb2 : pb2 = pb :=
            build_item_preserves_pb env pb scene _ timestamp user_data _ _ _ i s2 pb2 hb
          rw [ih pb2 s2 scene' pb' h, hpb2]

/-- One `PartBuilder` operation keeps an empty part cache empty. -/
theorem pb_step_keeps_cache_empty (env : Env) (s : PartBuilder × Scene) (op : PBOp)
    (h : s.1.part_cache = []) : (pb_step env s op).1.part_cache = [] := by
  cases op with
  | clearCache => simp [pb_step, clear_cache]
  | retrievePart n =>
    cases hr : retrieve_part env s.1 s.2 n with
    | error e => simpa [pb_step, hr] using h
    | ok r => simpa [pb_step, hr] using h
  | buildItem part ts ud p u a =>
    cases hb : build_item env s.1 s.2 part ts ud p u a with
    | error e => simpa [pb_step, hb] using h
    | ok r =>
      obtain ⟨i, s2, pb2⟩ := r
      have : pb2 = s.1 := build_item_preserves_pb env s.1 s.2 _ _ _ _ _ _ i s2 pb2 hb
      simp [pb_step, hb, this, h]
  | buildFromDict d =>
    cases hb : build_parts_from_dict env s.1 s.2 d with
    | error e => simpa [pb_step, hb] using h
    | ok r =>
      obtain ⟨s2, pb2⟩ := r
      have := build_entries_preserves_cache env d.Objects s.1 s.2 s2 pb2 hb
      simp [pb_step, hb, this, h]
  | newFile st => simpa [pb_step, new_file] using h

/-- C1: the round trip fails on the code.  `c1Doc` is a valid export
document produced by `generate_data(capture_presets=True)` over a scene
whose one object carries all four tags the serializer reads, but
rebuilding from that document with `generate_from_data` and exporting
again raises `KeyError` on `UserData` (parts.py line 179) instead of
returning a document equal to `c1Doc`, because `build_item` (parts.py
lines 225-228) writes only the `objectID`, `Timestamp` and
`belongs_to_preset` tags on the parts it rebuilds. -/
theorem C1_round_trip_crashes :
    exceptOk c1Doc = true ∧ c1Round = .error (.keyError "UserData") := by decide

/-- C2: for every part built by `build_item` from the builder's
invariant empty cache, the custom tags written onto it are exactly
`objectID`, `Timestamp` and `belongs_to_preset` — in particular no
`UserData` tag — so `get_part_data(item, is_preset=False)` raises
`KeyError` on `UserData` instead of returning a dictionary. -/
theorem C2_build_item_tags (env : Env) (pb : PartBuilder) (scene : Scene) (part : String)
    (timestamp userdata : Int) (position up_vec at_vec : Vec3)
    (hcache : pb.part_cache = []) :
    ∃ item scene' pb',
      build_item env pb scene part timestamp userdata position up_vec at_vec =
        .ok (item, scene', pb') ∧
      item.tags.map Prod.fst = ["objectID", "Timestamp", "belongs_to_preset"] ∧
      getTag item.tags "UserData" = none ∧
      get_part_data item false = .error (.keyError "UserData") := by
  obtain ⟨ld, nd, pc, pr, po⟩ := pb
  simp only at hcache
  subst hcache
  exact ⟨_, _, _, rfl, rfl, rfl, rfl⟩

/-- C2 witness: a concrete part built over the empty cache. -/
theorem C2_witness :
    ∃ item scene' pb',
      build_item env0 pb0 [] "CUBE" 1539023700 0 ⟨0, 0, 0⟩ ⟨0, 1, 0⟩ ⟨0, 0, 1⟩ =
        .ok (item, scene', pb') ∧
      item.tags.map Prod.fst = ["objectID", "Timestamp", "belongs_to_preset"] ∧
      getTag item.tags "UserData" = none ∧
      get_part_data item false = .error (.keyError "UserData") :=
  C2_build_item_tags env0 pb0 [] "CUBE" 1539023700 0 ⟨0, 0, 0⟩ ⟨0, 1, 0⟩ ⟨0, 0, 1⟩ rfl

/-- C3: `new_file` resets every Base Record field to its default, but
its deletion sweep (init file lines 399-415) matches only the
capitalised keys `ObjectID`, `PresetID`, `NMS_LIGHT` and
`base_builder_item`, while `build_item` (parts.py line 226) tags parts
with lowercase `objectID`; a scene object carrying the part-identity tag
therefore survives `new_file`, contradicting the claim that no scene
object carries a part tag afterwards. -/
theorem C3_new_file_leaves_part :
    c3After.1 = st0 ∧
    c3After.2.1.any (fun ob => hasTag ob.tags "objectID") = true := by decide

/-- C4: for every object carrying the `objectID` tag (and integer
`Timestamp` and `UserData` tags), `get_part_data` succeeds and returns
the caret-prefixed ID, the translation, up-basis and at-basis columns of
the world transform premultiplied by the -90 degree X rotation, and
carries `Timestamp` and `UserData` exactly when `is_preset` is false. -/
theorem C4_get_part_data (ob : SceneOb) (is_preset : Bool) (ids : String) (tsn udn : Int)
    (hid : getTag ob.tags "objectID" = some (.tStr ids))
    (hts : getTag ob.tags "Timestamp" = some (.tInt tsn))
    (hud : getTag ob.tags "UserData" = some (.tInt udn)) :
    ∃ e, get_part_data ob is_preset = .ok e ∧
      e.ObjectID = "^" ++ ids ∧
      e.Position = (matRotNeg90X.mul ob.matrix_world).translation ∧
      e.Up = get_direction_vector (matRotNeg90X.mul ob.matrix_world) "up" ∧
      e.At = get_direction_vector (matRotNeg90X.mul ob.matrix_world) "at" ∧
      e.Position.x = ob.matrix_world.m03 ∧
      e.Position.y = ob.matrix_world.m23 ∧
      e.Position.z = -ob.matrix_world.m13 ∧
      e.Up.x = ob.matrix_world.m01 ∧
      e.Up.y = ob.matrix_world.m21 ∧
      e.Up.z = -ob.matrix_world.m11 ∧
      e.At.x = ob.matrix_world.m02 ∧
      e.At.y = ob.matrix_world.m22 ∧
      e.At.z = -ob.matrix_world.m12 ∧
      ((e.Timestamp.isSome && e.UserData.isSome) = true ↔ is_preset = false) ∧
      (is_preset = false → e.Timestamp = some tsn ∧ e.UserData = some udn) := by
  cases is_preset with
  | true =>
    refine ⟨{ ObjectID := "^" ++ ids,
              Position := (matRotNeg90X.mul ob.matrix_world).translation,
              Up := get_direction_vector (matRotNeg90X.mul ob.matrix_world) "up",
              At := get_direction_vector (matRotNeg90X.mul ob.matrix_world) "at",
              Timestamp := none, UserData := none },
      ?_, rfl, rfl, rfl, rfl, ?_, ?_, ?_, ?_, ?_, ?_, ?_, ?_, ?_, by simp, by simp⟩
    · simp [get_part_data, hid, pyStr]
    all_goals simp [Mat4.mul, Mat4.translation, get_direction_vector, matRotNeg90X]
  | false =>
    refine ⟨{ ObjectID := "^" ++ ids,
              Position := (matRotNeg90X.mul ob.matrix_world).translation,
              Up := get_direction_vector (matRotNeg90X.mul ob.matrix_world) "up",
              At := get_direction_vector (matRotNeg90X.mul ob.matrix_world) "at",
              Timestamp := some tsn, UserData := some udn },
      ?_, rfl, rfl, rfl, rfl, ?_, ?_, ?_, ?_, ?_, ?_, ?_, ?_, ?_, by simp, by simp⟩
    · simp [get_part_data, hid, hts, hud, tagAsInt, pyStr]
    all_goals simp [Mat4.mul, Mat4.translation, get_direction_vector, matRotNeg90X]

/-- C4 witness: `get_part_data` on a concrete tagged object with a
fully populated transform. -/
theorem C4_witness :
    ∃ e, get_part_data c4Ob false = .ok e ∧
      e.ObjectID = "^" ++ "ROOM" ∧
      e.Position = (matRotNeg90X.mul c4Ob.matrix_world).translation ∧
      e.Up = get_direction_vector (matRotNeg90X.mul c4Ob.matrix_world) "up" ∧
      e.At = get_direction_vector (matRotNeg90X.mul c4Ob.matrix_world) "at" ∧
      e.Position.x = c4Ob.matrix_world.m03 ∧
      e.Position.y = c4Ob.matrix_world.m23 ∧
      e.Position.z = -c4Ob.matrix_world.m13 ∧
      e.Up.x = c4Ob.matrix_world.m01 ∧
      e.Up.y = c4Ob.matrix_world.m21 ∧
      e.Up.z = -c4Ob.matrix_world.m11 ∧
      e.At.x = c4Ob.matrix_world.m02 ∧
      e.At.y = c4Ob.matrix_world.m22 ∧
      e.At.z = -c4Ob.matrix_world.m12 ∧
      ((e.Timestamp.isSome && e.UserData.isSome) = true ↔ false = false) ∧
      (false = false → e.Timestamp = some 11 ∧ e.UserData = some 4) :=
  C4_get_part_data c4Ob false "ROOM" 11 4 rfl rfl rfl

/-- C5: whenever `generate_data` returns a document, that document has
`BaseVersion` 4, `UserData` 0, empty `RID`, the fixed `BaseType` tag,
`GalacticAddress`, `LastUpdateTimestamp` and `Owner.TS` emitted as
integers exactly when their stored text parses as an integer and as text
otherwise, and a `Presets` key exactly when `capture_presets` is true. -/
theorem C5_generate_data_fields (st : NMSSettings) (scene : Scene) (cat : PresetCatalog)
    (capture_presets : Bool) (d : NMSDocument)
    (h : generate_data st scene cat capture_presets = .ok d) :
    d.BaseVersion = 4 ∧ d.UserData = 0 ∧ d.RID = "" ∧
    d.BaseType = { PersistentBaseTypes := "HomePlanetBase" } ∧
    d.GalacticAddress = int_or_str st.string_address ∧
    d.LastUpdateTimestamp = int_or_str st.string_last_ts ∧
    d.Owner.TS = int_or_str st.string_ts ∧
    (∀ n, pyIntParse st.string_address = some n → d.GalacticAddress = .int n) ∧
    (pyIntParse st.string_address = none → d.GalacticAddress = .str st.string_address) ∧
    (d.Presets.isSome = true ↔ capture_presets = true) := by
  unfold generate_data at h
  cases hg : get_all_part_data scene capture_presets with
  | error e => simp [hg] at h
  | ok objs =>
    rw [hg] at h
    simp only [Except.ok.injEq] at h
    subst h
    refine ⟨rfl, rfl, rfl, rfl, rfl, rfl, rfl, ?_, ?_, ?_⟩
    · intro n hn; simp [int_or_str, hn]
    · intro hn; simp [int_or_str, hn]
    · cases capture_presets <;> simp

/-- C5 witness: the export of the empty scene with presets captured. -/
theorem C5_witness :
    generate_data st0 [] [] true = .ok c5Doc0 ∧
    (c5Doc0.BaseVersion = 4 ∧ c5Doc0.UserData = 0 ∧ c5Doc0.RID = "" ∧
    c5Doc0.BaseType = { PersistentBaseTypes := "HomePlanetBase" } ∧
    c5Doc0.GalacticAddress = int_or_str st0.string_address ∧
    c5Doc0.LastUpdateTimestamp = int_or_str st0.string_last_ts ∧
    c5Doc0.Owner.TS = int_or_str st0.string_ts ∧
    (∀ n, pyIntParse st0.string_address = some n → c5Doc0.GalacticAddress = .int n) ∧
    (pyIntParse st0.string_address = none → c5Doc0.GalacticAddress = .str st0.string_address) ∧
    (c5Doc0.Presets.isSome = true ↔ true = true)) :=
  ⟨by decide, C5_generate_data_fields st0 [] [] true c5Doc0 (by decide)⟩

/-- C6: with a non-preset target, both objects carrying a `SnapID` tag,
and no pairing-catalog entry for the resolved (target group, source
group) pair, `snap_objects` reports failure by returning `False` and
leaves the source at the baseline: its world transform is the target's
world transform, and the snapper state is unchanged. -/
theorem C6_no_pairing_aborts (s : Snapper) (source target : SceneOb)
    (ns ps nt pt : Bool)
    (hpreset : hasTag target.tags "PresetID" = false)
    (hs : hasTag source.tags "SnapID" = true)
    (ht : hasTag target.tags "SnapID" = true)
    (hpair : get_snap_pair_options s ((getTag target.tags "SnapID").getD (.tStr ""))
      ((getTag source.tags "SnapID").getD (.tStr "")) = none) :
    snap_objects s source target ns ps nt pt =
      .ok (some false, { source with matrix_world := target.matrix_world, selected := true }, s) := by
  simp [snap_objects, hpreset, hs, ht, hpair]

/-- C6 witness: two snap-tagged objects over the empty catalogs. -/
theorem C6_witness :
    snap_objects c6Snapper c6Source c6Target false false false false =
      .ok (some false,
        { c6Source with matrix_world := c6Target.matrix_world, selected := true }, c6Snapper) :=
  C6_no_pairing_aborts c6Snapper c6Source c6Target false false false false
    (by decide) (by decide) (by decide) (by decide)

/-- C7 counterexample: the claim's trigger is "source and target share
the same snap group", but the code (snap.py lines 277 and 283) compares
`SnapID` values.  Here parts `A` and `B` lie in the same group `G`, a
next-target step resolves the target point to `p2`, whose declared
opposite is `q2` — yet the snap leaves `q1` (the cache/default
resolution) as the recorded source key, not `q2`. -/
theorem C7_counterexample :
    get_snap_group_from_part c7Snapper (.tStr "A") = some "G" ∧
    get_snap_group_from_part c7Snapper (.tStr "B") = some "G" ∧
    c7Result.toOption.map (fun r => r.1) = some (some true) ∧
    c7Result.toOption.map (fun r =>
      refGet ((List.lookup "src" r.2.2.snap_cache).getD []) "source" none) = some (some "q1") ∧
    c7Result.toOption.map (fun r =>
      refGet ((List.lookup "tgt" r.2.2.snap_cache).getD []) "target" none) = some (some "p2") ∧
    (List.lookup "p2" c7Points).map (fun i => i.opposite) = some (some "q2") ∧
    ("q1" : String) ≠ "q2" := by decide

/-- C7 (amended): in `snap_objects`' source-key resolution, when the
source and target carry an identical `SnapID` value (the code compares
snap IDs, not snap groups) and a next- or prev-target step was requested
with no source step, the resolved source key is the newly resolved
target point's declared opposite, falling back to the pairing's first
listed source option when no opposite is declared; whenever the snap IDs
differ, the source key comes from the per-object cache or the default
plus independent next/prev stepping. -/
theorem C7_source_key_resolution
    (tdatas : List (String × SnapPointInfo)) (spo : List String) (sref : SnapRef)
    (sid tid : TagValue) (tk : String) (ns ps nt pt : Bool) (info : SnapPointInfo)
    (hinfo : List.lookup tk tdatas = some info) :
    (sid = tid → (pt || nt) = true → ns = false → ps = false →
      resolve_source_key tdatas spo sref sid tid tk ns ps nt pt =
        .ok (info.opposite.getD (spo.headD ""))) ∧
    (sid ≠ tid →
      resolve_source_key tdatas spo sref sid tid tk ns ps nt pt =
        .ok (cached_or_default_key spo sref ns ps)) := by
  constructor
  · intro hst hnt hns hps
    subst hst hns hps
    simp only [resolve_source_key, lookupPoint, hinfo, beq_self_eq_true, if_true, hnt,
      Bool.true_and, Bool.and_self]
    cases ho : info.opposite with
    | none =>
      simp [ho]
    | some o =>
      by_cases hc : spo.contains o
      · simp [ho, hc]
      · simp [ho, hc]
  · intro hne
    have hb : (sid == tid) = false := by simpa using hne
    simp [resolve_source_key, cached_or_default_key, hb]

/-- C7 witness: with equal snap IDs and a next-target step, the resolved
source key is the resolved target point's declared opposite. -/
theorem C7_witness :
    resolve_source_key c7Points ["q1", "q2"] [] (.tStr "A") (.tStr "A") "p2"
      false false true false = .ok "q2" := by
  have h := (C7_source_key_resolution c7Points ["q1", "q2"] [] (.tStr "A") (.tStr "A") "p2"
    false false true false { matrix := Mat4.id, opposite := some "q2" }
    (by decide)).1 rfl (by decide) rfl rfl
  simpa using h

/-- C8: serializing a part whose object-type ID is registered to the
message-bearing override always yields a dictionary whose `Message`
field equals the stored message tag, or empty text when no message was
ever set; and `deserialise_from_data` first delegates to the base
reconstruction and then sets the message from the data's `Message`
field, defaulting to empty text when the field is absent. -/
theorem C8_message_override (registry : List (String × OverrideKind)) (p : Part)
    (data : List (String × TagValue))
    (hreg : List.lookup (pyStr ((getTag p.object.tags "objectID").getD (.tStr ""))) registry =
      some .message) :
    getTag (serialise_dispatch registry p) "Message" = some (MESSAGEMODULE.message p) ∧
    MESSAGEMODULE.message p = (getTag p.object.tags "Message").getD (.tStr "") ∧
    (getTag p.object.tags "Message" = none →
      getTag (serialise_dispatch registry p) "Message" = some (.tStr "")) ∧
    MESSAGEMODULE.deserialise_from_data data =
      MESSAGEMODULE.set_message (Part.deserialise_from_data data)
        ((getTag data "Message").getD (.tStr "")) ∧
    getTag (MESSAGEMODULE.deserialise_from_data data).object.tags "Message" =
      some (.tStr (pyStr ((getTag data "Message").getD (.tStr "")))) := by
  have hdisp : serialise_dispatch registry p = MESSAGEMODULE.serialise p := by
    simp [serialise_dispatch, hreg]
  have hser : getTag (serialise_dispatch registry p) "Message" =
      some (MESSAGEMODULE.message p) := by
    rw [hdisp]
    exact lookup_assocSet_self (Part.serialise p) "Message" (MESSAGEMODULE.message p)
  refine ⟨hser, rfl, ?_, rfl, ?_⟩
  · intro hnone
    rw [hser]
    simp [MESSAGEMODULE.message, hnone]
  · exact lookup_assocSet_self (Part.deserialise_from_data data).object.tags "Message" _

/-- C8 witness: the override serializes and deserializes a concrete
message-bearing part. -/
theorem C8_witness :
    getTag (serialise_dispatch c8Registry c8Part) "Message" =
      some (MESSAGEMODULE.message c8Part) ∧
    MESSAGEMODULE.message c8Part = (getTag c8Part.object.tags "Message").getD (.tStr "") ∧
    (getTag c8Part.object.tags "Message" = none →
      getTag (serialise_dispatch c8Registry c8Part) "Message" = some (.tStr "")) ∧
    MESSAGEMODULE.deserialise_from_data [("Message", .tStr "m2")] =
      MESSAGEMODULE.set_message (Part.deserialise_from_data [("Message", .tStr "m2")])
        ((getTag [("Message", .tStr "m2")] "Message").getD (.tStr "")) ∧
    getTag (MESSAGEMODULE.deserialise_from_data [("Message", .tStr "m2")]).object.tags
        "Message" =
      some (.tStr (pyStr ((getTag [("Message", .tStr "m2")] "Message").getD (.tStr "")))) :=
  C8_message_override c8Registry c8Part [("Message", .tStr "m2")] (by decide)

/-- C9: `get_all_nms_objects(capture_presets=True)` subscripts every
scene object with `belongs_to_preset` (parts.py line 76), so any scene
containing an object without that tag makes the call raise `KeyError`
instead of returning the union of preset roots and top-level parts; in
particular the lamps created by `build_light` carry only the
`NMS_LIGHT` tag and never `belongs_to_preset`. -/
theorem C9_missing_tag_fails (scene : Scene) (ob : SceneOb)
    (hmem : ob ∈ scene)
    (htag : getTag ob.tags "belongs_to_preset" = none) :
    get_all_nms_objects scene true = .error (.keyError "belongs_to_preset") ∧
    ∀ (pb : PartBuilder) (item light : SceneOb), light ∈ build_light pb item →
      getTag light.tags "belongs_to_preset" = none := by
  constructor
  · simp [get_all_nms_objects, flat_parts_filter_error scene ob hmem htag]
  · intro pb item light hlight
    unfold build_light at hlight
    cases hi : getTag item.tags "objectID" with
    | none => simp [hi] at hlight
    | some v =>
      cases v with
      | tStr object_id =>
        simp only [hi] at hlight
        cases hl : List.lookup object_id pb.lights_dictionary with
        | none => simp [hl] at hlight
        | some li =>
          simp only [hl, List.mem_map] at hlight
          obtain ⟨x, _, rfl⟩ := hlight
          rfl
      | tInt n => simp [hi] at hlight
      | tBool b => simp [hi] at hlight
      | tVec x y z => simp [hi] at hlight

/-- C9 witness: a scene holding one engine-managed lamp object. -/
theorem C9_witness :
    get_all_nms_objects [c9Light] true = .error (.keyError "belongs_to_preset") ∧
    ∀ (pb : PartBuilder) (item light : SceneOb), light ∈ build_light pb item →
      getTag light.tags "belongs_to_preset" = none :=
  C9_missing_tag_fails [c9Light] c9Light (by simp) (by decide)

/-- C10: the part cache is only ever read and cleared, never written —
from a freshly constructed builder, no sequence of part-builder
operations ever populates it — so every `retrieve_part` call with the
invariant empty cache resolves by OBJ import or by the placeholder cube;
and had the cache-hit branch been entered with the cached object still
present in the scene, the call would raise `NameError` on the undefined
name `item` instead of duplicating the cached hierarchy. -/
theorem C10_cache_never_used :
    (∀ (env : Env) (lights : List (String × List (String × LightInfo)))
      (nice ref : List (String × String)) (scene : Scene) (ops : List PBOp),
      (run_ops env (mk_part_builder lights nice ref, scene) ops).1.part_cache = []) ∧
    (∀ (env : Env) (pb : PartBuilder) (scene : Scene) (n : String),
      pb.part_cache = [] →
      ∃ b item lamps, retrieve_part env pb scene n = .ok (b, item, lamps) ∧
        (b = .objImport ∨ b = .cube)) ∧
    (∀ (env : Env) (pb : PartBuilder) (scene : Scene) (n : String) (cached : SceneOb),
      List.lookup n pb.part_cache = some cached →
      scene.any (fun ob => ob.name == cached.name) = true →
      retrieve_part env pb scene n = .error (.nameError "item")) := by
  refine ⟨?_, ?_, ?_⟩
  · intro env lights nice ref scene ops
    have hrun : ∀ (ops : List PBOp) (s : PartBuilder × Scene), s.1.part_cache = [] →
        (run_ops env s ops).1.part_cache = [] := by
      intro ops
      induction ops with
      | nil => intro s h; exact h
      | cons op rest ih =>
        intro s h
        exact ih (pb_step env s op) (pb_step_keeps_cache_empty env s op h)
    exact hrun ops (mk_part_builder lights nice ref, scene) rfl
  · intro env pb scene n h
    unfold retrieve_part
    rw [h]
    simp only [List.lookup]
    cases hf : env.fileExists ((get_obj_path pb n).getD "") with
    | true =>
      refine ⟨.objImport, { name := n, tags := [("objectID", .tStr n)] },
        build_light pb { name := n, tags := [("objectID", .tStr n)] }, ?_, Or.inl rfl⟩
      simp [hf]
    | false =>
      refine ⟨.cube, { name := n, tags := [("objectID", .tStr n)] },
        build_light pb { name := n, tags := [("objectID", .tStr n)] }, ?_, Or.inr rfl⟩
      simp [hf]
  · intro env pb scene n cached hl ha
    unfold retrieve_part
    simp [hl, ha]

/-- C10 witness: the cache-hit branch with the cached object alive in
the scene raises `NameError` on the undefined name `item`. -/
theorem C10_witness :
    List.lookup "CUBE" c10Builder.part_cache = some c10CachedOb ∧
    (([c10CachedOb] : Scene).any (fun ob => ob.name == c10CachedOb.name)) = true ∧
    retrieve_part env0 c10Builder [c10CachedOb] "CUBE" = .error (.nameError "item") :=
  ⟨by decide, by decide,
    C10_cache_never_used.2.2 env0 c10Builder [c10CachedOb] "CUBE" c10CachedOb
      (by decide) (by decide)⟩

end NMS
